import Mathlib

/-!
Shallow embedding of the Vibe-Monitor demo service (`main.py`) and its traffic
generator (`traffic_generator.py`), together with proofs of the behavioural
properties of the request-instrumentation pipeline and of the load scheduler.

Time is modelled by rationals (seconds); the wall clock is idealized: sleeps
take exactly their argument and everything else takes zero time.  Randomness
(`random.choice`, `random.uniform`) and the network are modelled as explicit
inputs.  Logging, metric updates and header writes are recorded as an explicit
event trace so that ordering claims can be stated.
-/

namespace VibeMonitor

/-- An inbound HTTP request as the middleware sees it: `request.method`,
`request.url` (the full URL) and `request.url.path`. -/
structure Request where
  method : String
  url : String
  path : String
deriving DecidableEq

/-- An HTTP response: status code, headers and a JSON-object body modelled as
a list of string key/value pairs. -/
structure Response where
  status : Nat
  headers : List (String × String)
  body : List (String × String)
deriving DecidableEq

/-- The outcome of `await call_next(request)`: either the handler chain
returns a response, or an exception propagates out of it. -/
inductive HandlerOutcome where
  | resp (r : Response)
  | exn (e : String)
deriving DecidableEq

/-- Label key of the `http_requests_total` counter: `(method, endpoint, status)`
where `endpoint` is `str(request.url.path)`. -/
abbrev CounterKey := String × String × Nat

/-- The custom Prometheus metrics of `main.py`: the labeled counter
`REQUEST_COUNT` and the sample list of the `REQUEST_LATENCY` histogram. -/
structure Metrics where
  counters : List (CounterKey × Nat)
  latency : List ℚ
deriving DecidableEq

/-- Fresh registry: no counter children, no histogram samples. -/
def emptyMetrics : Metrics := ⟨[], []⟩

/-- `REQUEST_COUNT.labels(...).inc()` on the underlying association list: bump
the existing child for the key, or create it at 1. -/
def incCounter : List (CounterKey × Nat) → CounterKey → List (CounterKey × Nat)
  | [], k => [(k, 1)]
  | (k', n) :: rest, k =>
      if k' = k then (k', n + 1) :: rest else (k', n) :: incCounter rest k

/-- Counter increment lifted to the registry. -/
def Metrics.inc (m : Metrics) (k : CounterKey) : Metrics :=
  { m with counters := incCounter m.counters k }

/-- `REQUEST_LATENCY.observe(t)`: append one sample to the distribution. -/
def Metrics.observe (m : Metrics) (t : ℚ) : Metrics :=
  { m with latency := m.latency ++ [t] }

/-- Total of the counter over all `(method, endpoint, status)` children. -/
def counterTotal (m : Metrics) : Nat :=
  (m.counters.map (fun p => p.2)).sum

/-- Current value of one counter child (0 when the child does not exist). -/
def getCount : List (CounterKey × Nat) → CounterKey → Nat
  | [], _ => 0
  | (k', n) :: rest, k => if k' = k then n else getCount rest k

/-- Zero-pad a natural number below 10000 to four digits. -/
def pad4 (n : Nat) : String :=
  if n < 10 then "000" ++ toString n
  else if n < 100 then "00" ++ toString n
  else if n < 1000 then "0" ++ toString n
  else toString n

/-- Model of the Python format spec `:.4f` on a nonnegative duration: round to
four decimal places and print with exactly four fractional digits. -/
def format4 (q : ℚ) : String :=
  let n : Nat := (round (q * 10000)).toNat
  toString (n / 10000) ++ "." ++ pad4 (n % 10000)

/-- Model of Python `str` on the measured duration. -/
def ratStr (q : ℚ) : String := toString q

/-- One observable side effect of the middleware, in program order. -/
inductive Event where
  | logInfoIncoming (method url : String)
  | handlerInvoked
  | recordElapsed (t : ℚ)
  | counterInc (k : CounterKey)
  | latencyObserve (t : ℚ)
  | logInfoCompleted (method path : String) (status : Nat) (duration : String)
  | setHeader (name value : String)
deriving DecidableEq

instance : DecidableEq (Except String Response) := fun x y =>
  match x, y with
  | .ok a, .ok b =>
      if h : a = b then .isTrue (by rw [h]) else .isFalse (by simp [h])
  | .error a, .error b =>
      if h : a = b then .isTrue (by rw [h]) else .isFalse (by simp [h])
  | .ok _, .error _ => .isFalse (fun hc => Except.noConfusion hc)
  | .error _, .ok _ => .isFalse (fun hc => Except.noConfusion hc)

/-- Result of one middleware invocation: the value returned to the caller
(`Except.error` when an exception propagates), the updated metrics registry,
and the ordered trace of side effects. -/
structure MwResult where
  outcome : Except String Response
  metrics : Metrics
  events : List Event
deriving DecidableEq

/-- Model of the `add_process_time_header` middleware of `main.py`.

`callNext` is the outcome of `await call_next(request)` and `elapsed` the
measured `time.time() - start_time`.  The Python middleware has no
`try`/`except`: when `call_next` raises, the exception propagates and none of
the post-handler statements run.  On a returned response it increments
`REQUEST_COUNT` with labels `(method, path, status)`, observes the latency,
logs the completion line with the duration formatted `:.4f`, and sets the
`X-Process-Time` header to `str(process_time)`. -/
def add_process_time_header (req : Request) (callNext : HandlerOutcome)
    (elapsed : ℚ) (m : Metrics) : MwResult :=
  let ev0 : List Event := [.logInfoIncoming req.method req.url, .handlerInvoked]
  match callNext with
  | .exn e => ⟨.error e, m, ev0⟩
  | .resp r =>
      let k : CounterKey := (req.method, req.path, r.status)
      let m' := (m.inc k).observe elapsed
      let r' := { r with headers := r.headers ++ [("X-Process-Time", ratStr elapsed)] }
      ⟨.ok r', m',
        ev0 ++ [.recordElapsed elapsed, .counterInc k, .latencyObserve elapsed,
          .logInfoCompleted req.method req.path r.status (format4 elapsed),
          .setHeader "X-Process-Time" (ratStr elapsed)]⟩

/-- Run a batch of completed requests (each a request, the response its handler
returned, and its measured duration) through the middleware, threading the
metrics registry. -/
def processRequests (m : Metrics) : List (Request × Response × ℚ) → Metrics
  | [] => m
  | (req, r, t) :: rest =>
      processRequests (add_process_time_header req (.resp r) t m).metrics rest

/-- A trace span as the handlers build it: name, attributes in the order they
were set, recorded exceptions, and whether the `with` block has ended it.  The
`with tracer.start_as_current_span(...)` scoping of `main.py` ends each span
exactly once, on every exit path of its block. -/
structure Span where
  name : String
  attrs : List (String × String)
  exns : List String
  ended : Bool
deriving DecidableEq

/-- First value set for an attribute key, if any. -/
def attrLookup : List (String × String) → String → Option String
  | [], _ => none
  | (k', v) :: rest, k => if k' = k then some v else attrLookup rest k

/-- `GET /` handler (`root`). -/
def root_handler (now : String) : Response × Span :=
  (⟨200, [], [("message", "Hello World!"), ("timestamp", now)]⟩,
   ⟨"root_handler", [("endpoint", "/")], [], true⟩)

/-- `GET /health` handler (`health_check`). -/
def health_check (now : String) : Response × Span :=
  (⟨200, [], [("status", "healthy"), ("timestamp", now)]⟩,
   ⟨"health_check", [("endpoint", "/health")], [], true⟩)

/-- `GET /slow` handler (`slow_endpoint`): `delay` is the value drawn by
`random.uniform(1, 3)`; the handler sleeps for `delay` seconds. -/
def slow_endpoint (delay : ℚ) (now : String) : Response × Span :=
  (⟨200, [], [("message", "This was slow!"), ("delay", ratStr delay), ("timestamp", now)]⟩,
   ⟨"slow_endpoint", [("delay_seconds", ratStr delay), ("endpoint", "/slow")], [], true⟩)

/-- `GET /error` handler (`error_endpoint`): records a simulated exception on
its span and returns — it does not raise — a `JSONResponse` with status 500. -/
def error_endpoint (now : String) : Response × Span :=
  (⟨500, [], [("error", "Simulated server error"), ("timestamp", now)]⟩,
   ⟨"error_endpoint", [("endpoint", "/error")], ["Simulated error"], true⟩)

/-- The simulated user record built by `get_user`. -/
structure UserData where
  id : Int
  name : String
  email : String
  timestamp : String
deriving DecidableEq

/-- `GET /users/\x7buser_id\x7d` handler (`get_user`). -/
def get_user (user_id : Int) (now : String) : UserData × Span :=
  (⟨user_id, "User " ++ toString user_id, "user" ++ toString user_id ++ "@example.com", now⟩,
   ⟨"get_user",
    [("user_id", toString user_id), ("endpoint", "/users/\x7buser_id\x7d")], [], true⟩)

/-- JSON response produced from a user record. -/
def userResponse (u : UserData) : Response :=
  ⟨200, [],
   [("id", toString u.id), ("name", u.name), ("email", u.email), ("timestamp", u.timestamp)]⟩

/-- The routes of the service, with the data their handlers consume. -/
inductive Route where
  | root
  | health
  | slow (delay : ℚ)
  | error
  | user (uid : Int)
deriving DecidableEq

/-- The concrete path of the inbound request for a route. -/
def Route.requestPath : Route → String
  | .root => "/"
  | .health => "/health"
  | .slow _ => "/slow"
  | .error => "/error"
  | .user uid => "/users/" ++ toString uid

/-- The literal string each handler passes to `span.set_attribute("endpoint", _)`:
the fixed path for the fixed routes, the route template for the user route. -/
def Route.pattern : Route → String
  | .root => "/"
  | .health => "/health"
  | .slow _ => "/slow"
  | .error => "/error"
  | .user _ => "/users/\x7buser_id\x7d"

/-- The span produced by one invocation of the route's handler. -/
def Route.spanOf : Route → String → Span
  | .root, now => (root_handler now).2
  | .health, now => (health_check now).2
  | .slow d, now => (slow_endpoint d now).2
  | .error, now => (error_endpoint now).2
  | .user uid, now => (get_user uid now).2

/-- Full pipeline on `GET /error`: the handler returns its 500 response, which
then passes through the middleware. -/
def pipelineError (now : String) (elapsed : ℚ) (m : Metrics) : MwResult × Span :=
  let h := error_endpoint now
  (add_process_time_header ⟨"GET", "http://localhost:8000/error", "/error"⟩
    (.resp h.1) elapsed m, h.2)

/-- Full pipeline on `GET /slow` under the idealized clock: the handler sleeps
for `delay`, everything else is instantaneous, so the middleware measures
exactly `delay`. -/
def pipelineSlow (delay : ℚ) (now : String) (m : Metrics) : MwResult :=
  let h := slow_endpoint delay now
  add_process_time_header ⟨"GET", "http://localhost:8000/slow", "/slow"⟩
    (.resp h.1) delay m

/-- Status code the middleware's caller sees, `none` when an exception
propagated instead of a response. -/
def outcomeStatus : Except String Response → Option Nat
  | .ok r => some r.status
  | .error _ => none

/-- Header value on the response the middleware's caller sees. -/
def respHeader (res : MwResult) (name : String) : Option String :=
  match res.outcome with
  | .ok r => attrLookup r.headers name
  | .error _ => none

/-- `BASE_URL` of `traffic_generator.py`. -/
def BASE_URL : String := "http://localhost:8000"

/-- The configured endpoint set of `traffic_generator.py`. -/
def endpoints : List String :=
  ["/", "/health", "/slow", "/error", "/users/1", "/users/2", "/users/3"]

/-- `random.choice(endpoints)`: `pick` is a uniformly distributed draw, reduced
modulo the size of the set to index it. -/
def chooseEndpoint (pick : Nat) : String :=
  endpoints.getD (pick % endpoints.length) "/"

/-- Model of `make_request`: draw a random endpoint and issue one GET through
the network, `net` answering `some status`, or `none` when `requests.get`
raises a `RequestException` (the function catches it and returns `None`). -/
def make_request (pick : Nat) (net : String → Option Nat) : Option Nat :=
  net (BASE_URL ++ chooseEndpoint pick)

/-- Number of requests one `burst_traffic` call submits. -/
def burstCount : Nat := 50

/-- `max_workers` of the `burst_traffic` thread pool. -/
def burstPoolSize : Nat := 20

/-- Model of `burst_traffic`: submit `burstCount` independent `make_request`
tasks (request `i` drawing `picks i`), then wait on every future; the function
returns exactly the list of all resolved outcomes. -/
def burst_traffic (picks : Nat → Nat) (net : String → Option Nat) : List (Option Nat) :=
  (List.range burstCount).map (fun i => make_request (picks i) net)

/-- Total time `generate_traffic` spends sleeping while submitting one window:
`rate` submissions, `time.sleep(1/rate)` after each. -/
def windowSleep (rate : Nat) : ℚ := rate * (1 / (rate : ℚ))

/-- The `while time.time() - start_time < duration` loop of `generate_traffic`
on the idealized clock, fuel-indexed.  State is the current instant `t`; each
iteration submits `rate` requests (sleeping `1/rate` after each) and then waits
`wait` seconds for all the window's futures to resolve before re-checking the
deadline.  Returns the number of requests submitted and the finish instant. -/
def gtLoop (rate : Nat) (duration : ℚ) (wait : ℚ) : Nat → ℚ → Nat × ℚ
  | 0, t => (0, t)
  | Nat.succ fuel, t =>
      if t < duration then
        let p := gtLoop rate duration wait fuel (t + windowSleep rate + wait)
        (rate + p.1, p.2)
      else (0, t)

/-- Model of `generate_traffic(duration, requests_per_second)`: run the window
loop from instant 0. -/
def generate_traffic (duration : ℚ) (rate : Nat) (wait : ℚ) (fuel : Nat) : Nat × ℚ :=
  gtLoop rate duration wait fuel 0

/-- One probe of the readiness loop: `requests.get(BASE_URL + "/health")`
either returns a status or raises (connection error / timeout). -/
inductive ProbeResult where
  | ok (status : Nat)
  | connErr
deriving DecidableEq

/-- The `time.sleep(2)` interval of the readiness loop, in seconds. -/
def pollInterval : ℚ := 2

/-- Model of the `while True` readiness loop of `traffic_generator.py`,
fuel-indexed over probe attempts.  `probes i` is the outcome of the `i`-th
probe; `slept` accumulates total sleep time.  A probe returning status 200
breaks the loop, yielding the number of probes made and the total sleep; a
probe returning any other status loops again immediately (the `except` branch
does not run, so there is no sleep); a raising probe sleeps `pollInterval` and
loops.  `none` means the loop is still running when the fuel ends. -/
def waitReady (probes : Nat → ProbeResult) : Nat → Nat → ℚ → Option (Nat × ℚ)
  | 0, _, _ => none
  | Nat.succ fuel, i, slept =>
      match probes i with
      | .ok s =>
          if s = 200 then some (i + 1, slept)
          else waitReady probes fuel (i + 1) slept
      | .connErr => waitReady probes fuel (i + 1) (slept + pollInterval)

/-- Number of raising probes among `probes k, …, probes (k+i-1)`. -/
def countErr (probes : Nat → ProbeResult) (k : Nat) : Nat → Nat
  | 0 => 0
  | Nat.succ i =>
      (if probes k = ProbeResult.connErr then 1 else 0) + countErr probes (k + 1) i

/-- Probe sequence whose first probe returns status 503 and second returns
status 200. -/
def probes503 : Nat → ProbeResult :=
  fun i => if i = 0 then .ok 503 else .ok 200

/-- Probe sequence raising connection errors twice, then ready. -/
def probesConnErr : Nat → ProbeResult :=
  fun i => if i < 2 then .connErr else .ok 200

/-- A concrete request to the root route. -/
def reqRoot : Request := ⟨"GET", "http://localhost:8000/", "/"⟩

/-- A concrete random stream always drawing 0. -/
def picks0 : Nat → Nat := fun _ => 0

/-- A concrete network always answering status 200. -/
def net200 : String → Option Nat := fun _ => some 200

theorem sum_incCounter (cs : List (CounterKey × Nat)) (k : CounterKey) :
    ((incCounter cs k).map (fun p => p.2)).sum = (cs.map (fun p => p.2)).sum + 1 := by
  induction cs with
  | nil => simp [incCounter]
  | cons hd tl ih =>
      obtain ⟨k', n⟩ := hd
      by_cases h : k' = k <;> simp [incCounter, h, ih] <;> omega

theorem counterTotal_inc (m : Metrics) (k : CounterKey) :
    counterTotal (m.inc k) = counterTotal m + 1 :=
  sum_incCounter m.counters k

theorem getCount_incCounter (cs : List (CounterKey × Nat)) (k : CounterKey) :
    getCount (incCounter cs k) k = getCount cs k + 1 := by
  induction cs with
  | nil => simp [incCounter, getCount]
  | cons hd tl ih =>
      obtain ⟨k', n⟩ := hd
      by_cases h : k' = k <;> simp [incCounter, h, getCount, ih]

theorem mw_metrics_resp (req : Request) (r : Response) (t : ℚ) (m : Metrics) :
    (add_process_time_header req (.resp r) t m).metrics =
      (m.inc (req.method, req.path, r.status)).observe t := rfl

theorem counterTotal_observe (m : Metrics) (t : ℚ) :
    counterTotal (m.observe t) = counterTotal m := rfl

theorem latency_observe (m : Metrics) (t : ℚ) :
    (m.observe t).latency = m.latency ++ [t] := rfl

theorem latency_inc (m : Metrics) (k : CounterKey) :
    (m.inc k).latency = m.latency := rfl

/-- Claim C1: for every batch of N completed requests, whatever their routes
and statuses, the counter total summed over all `(method, path, status)`
children grows by exactly N and the latency distribution gains exactly N
samples — one increment and one observation per completed request. -/
theorem c1_metrics_count_requests (L : List (Request × Response × ℚ)) (m : Metrics) :
    counterTotal (processRequests m L) = counterTotal m + L.length ∧
    (processRequests m L).latency.length = m.latency.length + L.length := by
  induction L generalizing m with
  | nil => simp [processRequests]
  | cons hd tl ih =>
      obtain ⟨req, r, t⟩ := hd
      have h := ih ((m.inc (req.method, req.path, r.status)).observe t)
      simp only [processRequests, mw_metrics_resp] at *
      refine ⟨?_, ?_⟩
      · rw [h.1, counterTotal_observe, counterTotal_inc]
        simp [Nat.add_assoc, Nat.add_comm]
      · rw [h.2, latency_observe, latency_inc]
        simp
        omega

/-- Claim C2 fails on the code: when the handler raises, `add_process_time_header`
(which has no `try`/`except`) lets the exception escape with no counter
increment, no latency sample, no completion log, no timing header — and the
value propagated is the exception, not a 500-class response. -/
theorem c2_counterexample :
    (add_process_time_header reqRoot (.exn "boom") 1 emptyMetrics).metrics = emptyMetrics ∧
    (add_process_time_header reqRoot (.exn "boom") 1 emptyMetrics).outcome =
      Except.error "boom" ∧
    (add_process_time_header reqRoot (.exn "boom") 1 emptyMetrics).events =
      [Event.logInfoIncoming "GET" "http://localhost:8000/", Event.handlerInvoked] :=
  ⟨rfl, rfl, rfl⟩

/-- Claim C2 (amended): when the handler raises an unexpected exception, the
middleware performs none of its post-handler steps — the metrics registry is
untouched, the only recorded side effect is the incoming-request log, and the
exception itself propagates out of the middleware (any conversion to a 500
response happens in outer framework layers, not in this pipeline). -/
theorem c2_amended_exception_escapes (req : Request) (e : String) (t : ℚ) (m : Metrics) :
    add_process_time_header req (.exn e) t m =
      ⟨Except.error e, m, [Event.logInfoIncoming req.method req.url, Event.handlerInvoked]⟩ :=
  rfl

/-- Claim C3: per completed request the middleware's side effects occur in this
total order — incoming info log (method, URL), handler invocation, elapsed-time
recording, counter increment, latency observation, completion info log (method,
path, status, duration formatted to 4 decimal places), and finally the
stringified elapsed time attached as the `X-Process-Time` header. -/
theorem c3_event_order (req : Request) (r : Response) (t : ℚ) (m : Metrics) :
    (add_process_time_header req (.resp r) t m).events =
      [Event.logInfoIncoming req.method req.url, Event.handlerInvoked,
       Event.recordElapsed t, Event.counterInc (req.method, req.path, r.status),
       Event.latencyObserve t,
       Event.logInfoCompleted req.method req.path r.status (format4 t),
       Event.setHeader "X-Process-Time" (ratStr t)] :=
  rfl

/-- Claim C4: a request to `/error` yields a response with status 500 through
the middleware, a span with the simulated exception recorded, and a counter
increment under the key `("GET", "/error", 500)`; the handler returns normally,
so nothing propagates as a pipeline failure and the request is never dropped. -/
theorem c4_error_route (now : String) (t : ℚ) (m : Metrics) :
    outcomeStatus (pipelineError now t m).1.outcome = some 500 ∧
    (pipelineError now t m).2.exns = ["Simulated error"] ∧
    getCount (pipelineError now t m).1.metrics.counters ("GET", "/error", 500) =
      getCount m.counters ("GET", "/error", 500) + 1 := by
  refine ⟨rfl, rfl, ?_⟩
  exact getCount_incCounter m.counters ("GET", "/error", 500)

/-- Claim C10: for every integer `user_id` the user-lookup handler succeeds
deterministically — the record's id is `user_id`, its name is `"User "`
followed by the id, its email is `"user"` ++ id ++ `"@example.com"`, only the
timestamp depends on the clock, and the span carries no recorded exception. -/
theorem c10_get_user (uid : Int) (now : String) :
    (get_user uid now).1.id = uid ∧
    (get_user uid now).1.name = "User " ++ toString uid ∧
    (get_user uid now).1.email = "user" ++ toString uid ++ "@example.com" ∧
    (get_user uid now).1.timestamp = now ∧
    (get_user uid now).2.exns = [] :=
  ⟨rfl, rfl, rfl, rfl, rfl⟩

/-- Claim C8: for a request to the slow route whose drawn delay lies in the
`random.uniform(1, 3)` bounds, the elapsed time appended to the latency
distribution is that same delay, the `X-Process-Time` header carries the
stringification of that very measurement, and the value lies within 1 and 3
seconds (idealized clock: the handler's sleep is the whole elapsed time). -/
theorem c8_slow_route (delay : ℚ) (now : String) (m : Metrics)
    (h1 : 1 ≤ delay) (h2 : delay ≤ 3) :
    (pipelineSlow delay now m).metrics.latency = m.latency ++ [delay] ∧
    respHeader (pipelineSlow delay now m) "X-Process-Time" = some (ratStr delay) ∧
    1 ≤ delay ∧ delay ≤ 3 := by
  refine ⟨rfl, ?_, h1, h2⟩
  simp [pipelineSlow, add_process_time_header, respHeader, attrLookup, slow_endpoint]

/-- Witness for C8 at delay 2. -/
theorem c8_slow_route_witness :
    (1 : ℚ) ≤ 2 ∧ (2 : ℚ) ≤ 3 ∧
    ((pipelineSlow 2 "" emptyMetrics).metrics.latency = emptyMetrics.latency ++ [2] ∧
     respHeader (pipelineSlow 2 "" emptyMetrics) "X-Process-Time" = some (ratStr 2) ∧
     (1 : ℚ) ≤ 2 ∧ (2 : ℚ) ≤ 3) :=
  ⟨by norm_num, by norm_num,
   c8_slow_route 2 "" emptyMetrics (by norm_num) (by norm_num)⟩

/-- Claim C9 fails on the code: on the user route the span's `endpoint`
attribute is the route template, not the request path — for `user_id = 1` the
request path is `/users/1` while the attribute holds the literal template. -/
theorem c9_counterexample :
    attrLookup ((Route.user 1).spanOf "t").attrs "endpoint" =
      some "/users/\x7buser_id\x7d" ∧
    (Route.user 1).requestPath = "/users/1" ∧
    attrLookup ((Route.user 1).spanOf "t").attrs "endpoint" ≠
      some ((Route.user 1).requestPath) := by
  refine ⟨by decide, by decide, by decide⟩

/-- Claim C9 (amended): every handler opens a span and ends it exactly once on
every exit path of its `with` block, with the `endpoint` attribute set to the
route's path pattern — which equals the concrete request path on every route
except the parametrized user route, where it is the literal template. -/
theorem c9_amended_span_per_route (r : Route) (now : String) :
    (r.spanOf now).ended = true ∧
    attrLookup (r.spanOf now).attrs "endpoint" = some r.pattern ∧
    (r.pattern = r.requestPath ∨ ∃ uid, r = Route.user uid) := by
  cases r with
  | root => exact ⟨rfl, rfl, Or.inl rfl⟩
  | health => exact ⟨rfl, rfl, Or.inl rfl⟩
  | slow d =>
      refine ⟨rfl, ?_, Or.inl rfl⟩
      simp [Route.spanOf, slow_endpoint, attrLookup, Route.pattern]
  | error => exact ⟨rfl, rfl, Or.inl rfl⟩
  | user uid =>
      refine ⟨rfl, ?_, Or.inr ⟨uid, rfl⟩⟩
      simp [Route.spanOf, get_user, attrLookup, Route.pattern]

/-- Claim C5: `burst_traffic` submits exactly 50 requests through its pool of
20 workers and returns the list of all 50 resolved outcomes; each entry is its
own `make_request` result, so one request failing (resolving to `none`) leaves
every other entry and the function's return intact. -/
theorem c5_burst (picks : Nat → Nat) (net : String → Option Nat) :
    (burst_traffic picks net).length = 50 ∧
    burstPoolSize = 20 ∧
    ∀ i, i < 50 → (burst_traffic picks net)[i]? = some (make_request (picks i) net) := by
  refine ⟨by simp [burst_traffic, burstCount], rfl, fun i hi => ?_⟩
  simp [burst_traffic, burstCount, List.getElem?_range, hi]

/-- Witness for C5 at request index 3 of a concrete burst. -/
theorem c5_burst_witness :
    3 < 50 ∧ (burst_traffic picks0 net200)[3]? = some (make_request (picks0 3) net200) :=
  ⟨by norm_num, (c5_burst picks0 net200).2.2 3 (by norm_num)⟩

theorem windowSleep_eq_one (R : Nat) (hR : 1 ≤ R) : windowSleep R = 1 := by
  have hne : (R : ℚ) ≠ 0 := Nat.cast_ne_zero.mpr (by omega)
  rw [windowSleep, mul_one_div]
  exact div_self hne

theorem gtLoop_ideal (R D : Nat) (hR : 1 ≤ R) :
    ∀ fuel k, D ≤ k + fuel →
      gtLoop R (D : ℚ) 0 fuel (k : ℚ) = ((D - k) * R, ((max D k : Nat) : ℚ)) := by
  intro fuel
  induction fuel with
  | zero =>
      intro k hk
      have h1 : D - k = 0 := by omega
      have h2 : max D k = k := by omega
      simp [gtLoop, h1, h2]
  | succ fuel ih =>
      intro k hk
      by_cases h : (k : ℚ) < (D : ℚ)
      · have hkD : k < D := by exact_mod_cast h
        have harg : (k : ℚ) + windowSleep R + 0 = ((k + 1 : Nat) : ℚ) := by
          rw [windowSleep_eq_one R hR]; push_cast; ring
        have hrec := ih (k + 1) (by omega)
        simp only [gtLoop, if_pos h, harg, hrec]
        have h1 : (D - k) * R = R + (D - (k + 1)) * R := by
          have hsub : D - k = (D - (k + 1)) + 1 := by omega
          rw [hsub, Nat.succ_mul]; omega
        have h2 : max D (k + 1) = max D k := by omega
        rw [h1, h2]
      · have hDk : D ≤ k := by exact_mod_cast le_of_not_lt h
        have h1 : D - k = 0 := by omega
        have h2 : max D k = k := by omega
        simp only [gtLoop]
        rw [if_neg h, h1, h2]
        simp

/-- Claim C6: on the idealized clock (exact sleeps, instantaneous requests and
future-waits) the steady loop runs one window per second — `R` submissions
paced by a `1/R`-second sleep after each, the window's futures awaited before
the next deadline check — so `generate_traffic` over a whole-second duration
`D` issues exactly `D * R` requests and finishes at instant `D`; and every
request's endpoint, drawn by `random.choice`, belongs to the configured
endpoint set. -/
theorem c6_steady_rate (D R fuel : Nat) (hR : 1 ≤ R) (hfuel : D ≤ fuel) :
    generate_traffic (D : ℚ) R 0 fuel = (D * R, (D : ℚ)) ∧
    ∀ pick, chooseEndpoint pick ∈ endpoints := by
  constructor
  · have h := gtLoop_ideal R D hR fuel 0 (by omega)
    simpa [generate_traffic] using h
  · intro pick
    have h7 : pick % endpoints.length < endpoints.length :=
      Nat.mod_lt _ (by decide)
    have hall : ∀ n, n < endpoints.length → endpoints.getD n "/" ∈ endpoints := by decide
    exact hall _ h7

/-- Witness for C6: duration 3 s at rate 2 issues 6 requests, done at t = 3. -/
theorem c6_steady_rate_witness :
    1 ≤ 2 ∧ 3 ≤ 5 ∧
    (generate_traffic ((3 : Nat) : ℚ) 2 0 5 = (3 * 2, ((3 : Nat) : ℚ)) ∧
     ∀ pick, chooseEndpoint pick ∈ endpoints) :=
  ⟨by norm_num, by norm_num, c6_steady_rate 3 2 5 (by norm_num) (by norm_num)⟩

theorem waitReady_step_ready (probes : Nat → ProbeResult) (fuel i : Nat) (slept : ℚ)
    (hcase : probes i = ProbeResult.ok 200) :
    waitReady probes (fuel + 1) i slept = some (i + 1, slept) := by
  simp [waitReady, hcase]

theorem waitReady_step_status (probes : Nat → ProbeResult) (fuel i : Nat) (slept : ℚ)
    (s : Nat) (hcase : probes i = ProbeResult.ok s) (hs : ¬s = 200) :
    waitReady probes (fuel + 1) i slept = waitReady probes fuel (i + 1) slept := by
  simp [waitReady, hcase, hs]

theorem waitReady_step_conn (probes : Nat → ProbeResult) (fuel i : Nat) (slept : ℚ)
    (hcase : probes i = ProbeResult.connErr) :
    waitReady probes (fuel + 1) i slept =
      waitReady probes fuel (i + 1) (slept + pollInterval) := by
  simp [waitReady, hcase]

theorem waitReady_none (probes : Nat → ProbeResult)
    (hp : ∀ j, probes j ≠ ProbeResult.ok 200) :
    ∀ fuel i slept, waitReady probes fuel i slept = none := by
  intro fuel
  induction fuel with
  | zero => intro i slept; rfl
  | succ fuel ih =>
      intro i slept
      cases hcase : probes i with
      | ok s =>
          have hs : ¬s = 200 := fun h => hp i (by rw [hcase, h])
          rw [waitReady_step_status probes fuel i slept s hcase hs]
          exact ih _ _
      | connErr =>
          rw [waitReady_step_conn probes fuel i slept hcase]
          exact ih _ _

theorem waitReady_first (probes : Nat → ProbeResult) :
    ∀ i fuel k slept, i < fuel →
      (∀ j, j < i → probes (k + j) ≠ ProbeResult.ok 200) →
      probes (k + i) = ProbeResult.ok 200 →
      waitReady probes fuel k slept =
        some (k + i + 1, slept + pollInterval * countErr probes k i) := by
  intro i
  induction i with
  | zero =>
      intro fuel k slept hfuel _ hready
      obtain ⟨fuel, rfl⟩ : ∃ f, fuel = f + 1 := ⟨fuel - 1, by omega⟩
      rw [Nat.add_zero] at hready
      rw [waitReady_step_ready probes fuel k slept hready]
      simp [countErr]
  | succ i ih =>
      intro fuel k slept hfuel hbefore hready
      obtain ⟨fuel, rfl⟩ : ∃ f, fuel = f + 1 := ⟨fuel - 1, by omega⟩
      have hk : probes k ≠ ProbeResult.ok 200 := by
        have h0 := hbefore 0 (by omega)
        simpa using h0
      have hready' : probes (k + 1 + i) = ProbeResult.ok 200 := by
        have harg : k + 1 + i = k + (i + 1) := by omega
        rw [harg]; exact hready
      have hbefore' : ∀ j, j < i → probes (k + 1 + j) ≠ ProbeResult.ok 200 := by
        intro j hj
        have harg : k + 1 + j = k + (j + 1) := by omega
        rw [harg]; exact hbefore (j + 1) (by omega)
      cases hcase : probes k with
      | ok s =>
          have hs : ¬s = 200 := fun h => hk (by rw [hcase, h])
          rw [waitReady_step_status probes fuel k slept s hcase hs,
            ih fuel (k + 1) slept (by omega) hbefore' hready']
          have hc : countErr probes k (i + 1) = countErr probes (k + 1) i := by
            simp [countErr, hcase]
          have hn : k + 1 + i + 1 = k + (i + 1) + 1 := by omega
          rw [hc, hn]
      | connErr =>
          rw [waitReady_step_conn probes fuel k slept hcase,
            ih fuel (k + 1) (slept + pollInterval) (by omega) hbefore' hready']
          have hc : countErr probes k (i + 1) = 1 + countErr probes (k + 1) i := by
            simp [countErr, hcase]
          have hn : k + 1 + i + 1 = k + (i + 1) + 1 := by omega
          rw [hc, hn]
          have hq : slept + pollInterval + pollInterval * (countErr probes (k + 1) i : ℚ) =
              slept + pollInterval * ((1 + countErr probes (k + 1) i : Nat) : ℚ) := by
            push_cast; ring
          rw [hq]

/-- Claim C7 fails as stated: when the first probe answers with a non-expected
status (503) and the second with 200, the loop returns after two probes having
slept a total of 0 seconds — the non-expected-status retry happens immediately,
not after the poll interval. -/
theorem c7_counterexample :
    waitReady probes503 5 0 0 = some (2, 0) ∧ (0 : ℚ) ≠ pollInterval := by
  refine ⟨by decide, by norm_num [pollInterval]⟩

/-- Claim C7 (amended): with no timeout configured the readiness loop never
returns while no probe yields status 200; it returns right after the first
probe that does, having slept the 2-second poll interval once per
connection-error probe before it — and nothing (no sleep) for probes that
returned a non-expected status. -/
theorem c7_amended_readiness (probes : Nat → ProbeResult) :
    ((∀ j, probes j ≠ ProbeResult.ok 200) →
      ∀ fuel i slept, waitReady probes fuel i slept = none) ∧
    (∀ i fuel, i < fuel →
      (∀ j, j < i → probes j ≠ ProbeResult.ok 200) →
      probes i = ProbeResult.ok 200 →
      waitReady probes fuel 0 0 = some (i + 1, pollInterval * countErr probes 0 i)) := by
  constructor
  · exact fun hp => waitReady_none probes hp
  · intro i fuel hf hb hr
    have h := waitReady_first probes i fuel 0 0 hf (by simpa using hb) (by simpa using hr)
    simpa using h

/-- Witness for C7 (amended): two connection errors then ready — three probes,
two poll-interval sleeps. -/
theorem c7_amended_readiness_witness :
    (∀ j, j < 2 → probesConnErr j ≠ ProbeResult.ok 200) ∧
    probesConnErr 2 = ProbeResult.ok 200 ∧ 2 < 5 ∧
    waitReady probesConnErr 5 0 0 = some (3, pollInterval * countErr probesConnErr 0 2) :=
  ⟨by decide, by decide, by decide,
   (c7_amended_readiness probesConnErr).2 2 5 (by decide) (by decide) (by decide)⟩

end VibeMonitor
